import Mathlib

/-!
Shallow embedding of the ElevenLabs text-to-speech command-line program
(source file elevenlabs-tts.py).  HTTP exchanges are modelled by outcome
values supplied through an environment record, file contents are byte
lists, and the process exit code, the issued requests and the written
output file are collected in a result record.
-/

/-- A byte of a file or of an HTTP response body. -/
abbrev Byte := Fin 256

/-- Model of requests raise_for_status: it raises an HTTPError exactly for
status codes in the interval from 400 up to but excluding 600 (4xx client
errors and 5xx server errors); informational and redirect statuses do not
raise. -/
def statusError (status : Nat) : Bool := decide (400 ≤ status) && decide (status < 600)

/-- Model of the Python whitespace predicate used by str.strip. -/
def pyIsSpace (c : Char) : Bool :=
  c.toNat = 32 || c.toNat = 9 || c.toNat = 10 || c.toNat = 11 || c.toNat = 12 ||
  c.toNat = 13 || (28 ≤ c.toNat && c.toNat ≤ 31) || c.toNat = 0x85 || c.toNat = 0xA0 ||
  c.toNat = 0x1680 || (0x2000 ≤ c.toNat && c.toNat ≤ 0x200A) ||
  c.toNat = 0x2028 || c.toNat = 0x2029 || c.toNat = 0x202F || c.toNat = 0x205F ||
  c.toNat = 0x3000

/-- Remove leading and trailing whitespace characters from a character list. -/
def pyStripList (cs : List Char) : List Char :=
  ((cs.dropWhile pyIsSpace).reverse.dropWhile pyIsSpace).reverse

/-- Model of Python str.strip with no arguments. -/
def pyStrip (s : String) : String := (pyStripList s.toList).asString

/-- Model of Python str.lower as used on ASCII voice names and prompt
answers: lower-case each character. -/
def pyLower (s : String) : String := (s.toList.map Char.toLower).asString

/-- Whether a byte is a UTF-8 continuation byte (0b10xxxxxx). -/
def isCont (b : Byte) : Bool := decide (0x80 ≤ b.val) && decide (b.val < 0xC0)

/-- Strict UTF-8 decoding step, as used by Python open(..., encoding=utf-8):
rejects stray continuation bytes, truncated sequences, overlong encodings,
surrogate code points and code points beyond 0x10FFFF.  The first argument
is termination fuel; every step consumes at least one byte, so fuel equal
to the byte count (as supplied by utf8Decode) never runs out. -/
def utf8DecodeAux : Nat → List Byte → Option (List Char)
  | _, [] => some []
  | 0, _ :: _ => none
  | fuel + 1, b :: rest =>
    if b.val < 0x80 then
      (utf8DecodeAux fuel rest).map (fun cs => Char.ofNat b.val :: cs)
    else if b.val < 0xC0 then none
    else if b.val < 0xE0 then
      match rest with
      | c1 :: rest2 =>
        if isCont c1 then
          let cp := (b.val - 0xC0) * 0x40 + (c1.val - 0x80)
          if 0x80 ≤ cp then (utf8DecodeAux fuel rest2).map (fun cs => Char.ofNat cp :: cs)
          else none
        else none
      | [] => none
    else if b.val < 0xF0 then
      match rest with
      | c1 :: c2 :: rest3 =>
        if isCont c1 && isCont c2 then
          let cp := (b.val - 0xE0) * 0x1000 + (c1.val - 0x80) * 0x40 + (c2.val - 0x80)
          if 0x800 ≤ cp && (cp < 0xD800 || 0xE000 ≤ cp) then
            (utf8DecodeAux fuel rest3).map (fun cs => Char.ofNat cp :: cs)
          else none
        else none
      | _ => none
    else if b.val < 0xF8 then
      match rest with
      | c1 :: c2 :: c3 :: rest4 =>
        if isCont c1 && isCont c2 && isCont c3 then
          let cp := (b.val - 0xF0) * 0x40000 + (c1.val - 0x80) * 0x1000 +
                    (c2.val - 0x80) * 0x40 + (c3.val - 0x80)
          if 0x10000 ≤ cp && cp ≤ 0x10FFFF then
            (utf8DecodeAux fuel rest4).map (fun cs => Char.ofNat cp :: cs)
          else none
        else none
      | _ => none
    else none

/-- Strict UTF-8 decoding of a whole byte list. -/
def utf8Decode (bs : List Byte) : Option (List Char) := utf8DecodeAux bs.length bs

/-- Latin-1 (ISO-8859-1) decoding: every byte maps directly to the Unicode
code point of the same value, so decoding is total. -/
def latin1Decode (bs : List Byte) : List Char := bs.map (fun b => Char.ofNat b.val)

/-- Windows-1252 decoding of a single byte: bytes 0x80 to 0x9F are remapped
through the cp1252 table and five of them (0x81, 0x8D, 0x8F, 0x90, 0x9D)
are undefined; all other bytes decode as in Latin-1. -/
def cp1252Char (b : Byte) : Option Char :=
  if b.val < 0x80 || 0xA0 ≤ b.val then some (Char.ofNat b.val)
  else if b.val = 0x80 then some (Char.ofNat 0x20AC)
  else if b.val = 0x82 then some (Char.ofNat 0x201A)
  else if b.val = 0x83 then some (Char.ofNat 0x0192)
  else if b.val = 0x84 then some (Char.ofNat 0x201E)
  else if b.val = 0x85 then some (Char.ofNat 0x2026)
  else if b.val = 0x86 then some (Char.ofNat 0x2020)
  else if b.val = 0x87 then some (Char.ofNat 0x2021)
  else if b.val = 0x88 then some (Char.ofNat 0x02C6)
  else if b.val = 0x89 then some (Char.ofNat 0x2030)
  else if b.val = 0x8A then some (Char.ofNat 0x0160)
  else if b.val = 0x8B then some (Char.ofNat 0x2039)
  else if b.val = 0x8C then some (Char.ofNat 0x0152)
  else if b.val = 0x8E then some (Char.ofNat 0x017D)
  else if b.val = 0x91 then some (Char.ofNat 0x2018)
  else if b.val = 0x92 then some (Char.ofNat 0x2019)
  else if b.val = 0x93 then some (Char.ofNat 0x201C)
  else if b.val = 0x94 then some (Char.ofNat 0x201D)
  else if b.val = 0x95 then some (Char.ofNat 0x2022)
  else if b.val = 0x96 then some (Char.ofNat 0x2013)
  else if b.val = 0x97 then some (Char.ofNat 0x2014)
  else if b.val = 0x98 then some (Char.ofNat 0x02DC)
  else if b.val = 0x99 then some (Char.ofNat 0x2122)
  else if b.val = 0x9A then some (Char.ofNat 0x0161)
  else if b.val = 0x9B then some (Char.ofNat 0x203A)
  else if b.val = 0x9C then some (Char.ofNat 0x0153)
  else if b.val = 0x9E then some (Char.ofNat 0x017E)
  else if b.val = 0x9F then some (Char.ofNat 0x0178)
  else none

/-- Windows-1252 decoding of a byte list; fails if any byte is undefined. -/
def cp1252Decode (bs : List Byte) : Option (List Char) := bs.mapM cp1252Char

/-- The character encodings the reader knows about. -/
inductive Encoding where
  | utf8
  | latin1
  | cp1252
deriving DecidableEq

/-- Dispatch a decoding attempt to the decoder of the given encoding. -/
def decodeWith : Encoding → List Byte → Option (List Char)
  | .utf8, bs => utf8Decode bs
  | .latin1, bs => some (latin1Decode bs)
  | .cp1252, bs => cp1252Decode bs

/-- The ordered fallback list tried after UTF-8 fails, from the source:
for encoding in [latin-1, cp1252]. -/
def fallback_encodings : List Encoding := [Encoding.latin1, Encoding.cp1252]

/-- The fallback loop of read_text_file: return stripped content from the
first encoding that succeeds, together with the encoding that was used. -/
def tryEncodings : List Encoding → List Byte → Option (String × Encoding)
  | [], _ => none
  | e :: rest, bs =>
    match decodeWith e bs with
    | some cs => some (pyStrip cs.asString, e)
    | none => tryEncodings rest bs

/-- Model of read_text_file: the argument is the file contents, or none when
the file does not exist (FileNotFoundError).  The result carries the
stripped text and which fallback encoding was reported (none when plain
UTF-8 succeeded); a none result is any of the failure branches. -/
def read_text_file : Option (List Byte) → Option (String × Option Encoding)
  | none => none
  | some bs =>
    match decodeWith Encoding.utf8 bs with
    | some cs => some (pyStrip cs.asString, none)
    | none =>
      match tryEncodings fallback_encodings bs with
      | some (content, e) => some (content, some e)
      | none => none

/-- The built-in voice catalog self.voices of ElevenLabsTTS. -/
def voices : List (String × String) :=
  [("adam", "pNInz6obpgDQGcFmaJgB"),
   ("bella", "EXAVITQu4vr4xnSDxMaL"),
   ("arnold", "VR6AewLTigWG4xSOukaG"),
   ("josh", "TxGEqnHWrfWFTfGW9XjX"),
   ("dave", "CYw3kZ02Hs0563khs1Fj"),
   ("laura", "FGY2WhTYpPnrIDTdsKH5"),
   ("charlie", "IKne3meq5aSn9XLyUdCD"),
   ("george", "JBFqnCBsd6RMkjVDRZzb")]

/-- The fixed base URL of the provider API. -/
def base_url : String := "https://api.elevenlabs.io/v1"

/-- The headers dictionary self.headers built by the constructor. -/
def apiHeaders (api_key : String) : List (String × String) :=
  [("Accept", "audio/mpeg"),
   ("Content-Type", "application/json"),
   ("xi-api-key", api_key)]

/-- The nested voice_settings object of the synthesis payload. -/
structure VoiceSettings where
  stability : ℚ
  similarity_boost : ℚ
  style : ℚ
  use_speaker_boost : Bool
deriving DecidableEq

/-- The JSON payload of the synthesis request. -/
structure Payload where
  text : String
  model_id : String
  voice_settings : VoiceSettings
deriving DecidableEq

/-- An issued synthesis HTTP request: URL, resolved voice identifier (the
final path segment of the URL), headers, and JSON payload. -/
structure Request where
  url : String
  voice_id : String
  headers : List (String × String)
  payload : Payload
deriving DecidableEq

/-- Outcome of an HTTP exchange as seen by the program: either a transport
level failure (requests raises a RequestException with no response) or a
response with a status code and a body. -/
inductive HttpOutcome where
  | transport (msg : String)
  | resp (status : Nat) (body : List Byte)
deriving DecidableEq

/-- Model of ElevenLabsTTS.text_to_speech: resolves the voice, builds the
request, and returns the request together with the audio bytes (none on a
transport failure or when raise_for_status raises). -/
def text_to_speech (api_key text voice model : String)
    (stability similarity_boost style : ℚ) (out : HttpOutcome) :
    Request × Option (List Byte) :=
  let voice_id := (List.lookup (pyLower voice) voices).getD voice
  let payload : Payload := ⟨text, model, ⟨stability, similarity_boost, style, true⟩⟩
  let req : Request := ⟨base_url ++ "/text-to-speech/" ++ voice_id, voice_id,
                        apiHeaders api_key, payload⟩
  (req,
    match out with
    | .transport _ => none
    | .resp status body => if statusError status then none else some body)

/-- One entry of the provider voice listing JSON. -/
structure VoiceInfo where
  name : String
  voice_id : String
deriving DecidableEq

/-- Outcome of the GET voices probe: transport failure, or a response with
a status code and the parsed voice list. -/
inductive ProbeOutcome where
  | transport (msg : String)
  | resp (status : Nat) (voicesList : List VoiceInfo)
deriving DecidableEq

/-- Result of a test_connection run: the request it issued (URL and
headers), whether it returned True, and what it printed (total voice count
and the displayed name/identifier-part pairs). -/
structure ProbeRun where
  url : String
  headers : List (String × String)
  ok : Bool
  printedCount : Option Nat
  printedEntries : List (String × String)
deriving DecidableEq

/-- Model of ElevenLabsTTS.test_connection: issues a GET on the voices
endpoint with only the API-key header, and on success prints the voice
count and the first 10 voices, each as its name with the first 8
characters of its identifier. -/
def test_connection (api_key : String) (out : ProbeOutcome) : ProbeRun :=
  let url := base_url ++ "/voices"
  let hdrs : List (String × String) := [("xi-api-key", api_key)]
  match out with
  | .transport _ => ⟨url, hdrs, false, none, []⟩
  | .resp status voicesList =>
    if statusError status then ⟨url, hdrs, false, none, []⟩
    else ⟨url, hdrs, true, some voicesList.length,
          (voicesList.take 10).map (fun v => (v.name, v.voice_id.take 8))⟩

/-- A wall-clock instant, the argument of strftime. -/
structure DateTime where
  year : Nat
  month : Nat
  day : Nat
  hour : Nat
  minute : Nat
  second : Nat
deriving DecidableEq

/-- Zero-pad a number to two digits. -/
def pad2 (n : Nat) : String := if n < 10 then "0" ++ toString n else toString n

/-- Zero-pad a number to four digits. -/
def pad4 (n : Nat) : String :=
  if n < 10 then "000" ++ toString n
  else if n < 100 then "00" ++ toString n
  else if n < 1000 then "0" ++ toString n
  else toString n

/-- Model of datetime.strftime with the pattern YYYYMMDD underscore HHMMSS. -/
def strftime_ts (t : DateTime) : String :=
  pad4 t.year ++ pad2 t.month ++ pad2 t.day ++ "_" ++
  pad2 t.hour ++ pad2 t.minute ++ pad2 t.second

/-- The final path component, as pathlib Path.name: trailing slashes are
dropped, then everything after the last slash is kept. -/
def pathName (p : String) : String :=
  (((p.toList.reverse.dropWhile (· == '/')).takeWhile (· != '/')).reverse).asString

/-- Model of pathlib Path.stem: the final component with its last dot
suffix removed, where a dot at the very beginning or very end of the name
does not count as starting a suffix. -/
def pyStem (p : String) : String :=
  let cs := (pathName p).toList
  match cs.reverse.findIdx? (· == '.') with
  | none => cs.asString
  | some j =>
    let i := cs.length - 1 - j
    if 0 < i ∧ i < cs.length - 1 then (cs.take i).asString else cs.asString

/-- The auto-generated output file name of main: input stem, voice name and
timestamp joined by underscores, with extension .mp3. -/
def autoName (input_file voice : String) (now : DateTime) : String :=
  pyStem input_file ++ "_" ++ voice ++ "_" ++ strftime_ts now ++ ".mp3"

/-- The parsed command-line arguments of main. -/
structure Args where
  input_file : Option String
  output : Option String
  voice : String
  model : String
  stability : ℚ
  similarity : ℚ
  style : ℚ
  test_connection : Bool

/-- The environment a run of main observes: the API key from the
environment variables, the input file contents (none when the file does
not exist), the current time, the interactive answer to the long-text
confirmation prompt, the outcome of each possible HTTP exchange, and
whether writing the output file succeeds. -/
structure Env where
  api_key : Option String
  file : Option (List Byte)
  now : DateTime
  userAnswer : String
  probe : ProbeOutcome
  synth : HttpOutcome
  saveOk : Bool

/-- What a run of main did: its exit code, whether the long-text prompt was
shown, the probe run if test_connection was invoked, the synthesis request
if one was issued, and the output file written (path and bytes), if any. -/
structure RunResult where
  exitCode : Nat
  prompted : Bool
  probe : Option ProbeRun
  synthRequest : Option Request
  written : Option (String × List Byte)

/-- The result of any branch of main that calls sys.exit(1) before issuing
a synthesis request. -/
def exitFail : RunResult := ⟨1, false, none, none, none⟩

/-- The tail of main after the audio bytes came back: exit 1 when audio is
None or empty, otherwise pick the output path (auto-generated when the
output argument is absent or empty) and write the file. -/
def afterAudio (args : Args) (env : Env) (input_file : String) (prompted : Bool)
    (req : Request) : Option (List Byte) → RunResult
  | none => ⟨1, prompted, none, some req, none⟩
  | some bytes =>
    if bytes = [] then ⟨1, prompted, none, some req, none⟩
    else
      let outPath :=
        match args.output with
        | none => autoName input_file args.voice env.now
        | some o => if o = "" then autoName input_file args.voice env.now else o
      if env.saveOk then ⟨0, prompted, none, some req, some (outPath, bytes)⟩
      else ⟨1, prompted, none, some req, none⟩

/-- The part of main from the synthesis call onward. -/
def runSynthesis (args : Args) (env : Env) (input_file text key : String)
    (prompted : Bool) : RunResult :=
  afterAudio args env input_file prompted
    (text_to_speech key text args.voice args.model args.stability args.similarity
      args.style env.synth).1
    (text_to_speech key text args.voice args.model args.stability args.similarity
      args.style env.synth).2

namespace Script

/-- Model of main: check the API key, run the connection test when asked
(always returning exit code 0 there), read and validate the input text,
confirm over-long text interactively, synthesize, and save. -/
def main (args : Args) (env : Env) : RunResult :=
  match env.api_key with
  | none => exitFail
  | some key =>
    if key = "" then exitFail
    else if args.test_connection then
      ⟨0, false, some (test_connection key env.probe), none, none⟩
    else
      match args.input_file with
      | none => exitFail
      | some input_file =>
        match read_text_file env.file with
        | none => exitFail
        | some (text, _) =>
          if text = "" then exitFail
          else if 5000 < text.length then
            if pyLower env.userAnswer ≠ "y" then ⟨1, true, none, none, none⟩
            else runSynthesis args env input_file text key true
          else runSynthesis args env input_file text key false

end Script

/-- A text of n letters a, for the long-input fixtures. -/
def aString (n : Nat) : String := (List.replicate n 'a').asString

/-- Fixture: arguments of a plain synthesis run with an explicit output path. -/
def cxArgs : Args := ⟨some "a.txt", some "out.mp3", "adam", "eleven_turbo_v2_5", 1/2, 3/4, 0, false⟩

/-- Fixture: environment whose synthesis response has redirect status 300. -/
def cxEnv : Env := ⟨some "k", some [104, 105], ⟨2024, 1, 2, 3, 4, 5⟩, "",
  ProbeOutcome.transport "t", HttpOutcome.resp 300 [7], true⟩

/-- Fixture: arguments of a plain synthesis run with auto-generated output. -/
def errArgs : Args := ⟨some "a.txt", none, "adam", "eleven_turbo_v2_5", 1/2, 3/4, 0, false⟩

/-- Fixture: environment whose synthesis response has status 404. -/
def errEnv : Env := ⟨some "k", some [104, 105], ⟨2024, 1, 2, 3, 4, 5⟩, "",
  ProbeOutcome.transport "t", HttpOutcome.resp 404 [], true⟩

/-- Fixture: arguments for the long-text run. -/
def longArgs : Args := ⟨some "a.txt", none, "adam", "eleven_turbo_v2_5", 1/2, 3/4, 0, false⟩

/-- Fixture: environment with a 5001-byte input file and an empty prompt answer. -/
def longEnv : Env := ⟨some "k", some (List.replicate 5001 97), ⟨2024, 1, 2, 3, 4, 5⟩, "",
  ProbeOutcome.transport "t", HttpOutcome.resp 200 [1], true⟩

/-- Fixture: arguments matching the documented naming example (draft.txt, bella). -/
def nameArgs : Args := ⟨some "draft.txt", none, "bella", "eleven_turbo_v2_5", 1/2, 3/4, 0, false⟩

/-- Fixture: environment at time 2024-01-02 03:04:05 with a successful synthesis. -/
def nameEnv : Env := ⟨some "k", some [104, 105], ⟨2024, 1, 2, 3, 4, 5⟩, "",
  ProbeOutcome.transport "t", HttpOutcome.resp 200 [1], true⟩

/-- Fixture: arguments of a run whose input file is all whitespace. -/
def blankArgs : Args := ⟨some "a.txt", none, "adam", "eleven_turbo_v2_5", 1/2, 3/4, 0, false⟩

/-- Fixture: environment whose input file holds a space and a newline only. -/
def blankEnv : Env := ⟨some "k", some [32, 10], ⟨2024, 1, 2, 3, 4, 5⟩, "n",
  ProbeOutcome.transport "t", HttpOutcome.resp 200 [1], true⟩

/-- Fixture: arguments asking for the connection test. -/
def tcArgs : Args := ⟨none, none, "adam", "eleven_turbo_v2_5", 1/2, 3/4, 0, true⟩

/-- Fixture: environment whose probe fails at the transport level. -/
def tcEnv : Env := ⟨some "k", none, ⟨2024, 1, 2, 3, 4, 5⟩, "",
  ProbeOutcome.transport "refused", HttpOutcome.transport "x", true⟩

/-- Fixture: a provider voice listing with twelve entries. -/
def voices12 : List VoiceInfo :=
  [⟨"v01", "aaaabbbbcc"⟩, ⟨"v02", "aaaabbbbcc"⟩, ⟨"v03", "aaaabbbbcc"⟩,
   ⟨"v04", "aaaabbbbcc"⟩, ⟨"v05", "aaaabbbbcc"⟩, ⟨"v06", "aaaabbbbcc"⟩,
   ⟨"v07", "aaaabbbbcc"⟩, ⟨"v08", "aaaabbbbcc"⟩, ⟨"v09", "aaaabbbbcc"⟩,
   ⟨"v10", "aaaabbbbcc"⟩, ⟨"v11", "aaaabbbbcc"⟩, ⟨"v12", "aaaabbbbcc"⟩]

theorem toList_asString (l : List Char) : (l.asString).toList = l := rfl

theorem dropWhile_replicate_of_neg {α : Type} (p : α → Bool) (a : α) (n : Nat)
    (h : p a = false) : List.dropWhile p (List.replicate n a) = List.replicate n a := by
  cases n with
  | zero => rfl
  | succ n => rw [List.replicate_succ, List.dropWhile_cons]; simp [h]

theorem pyStripList_replicate_a (n : Nat) :
    pyStripList (List.replicate n 'a') = List.replicate n 'a' := by
  unfold pyStripList
  rw [dropWhile_replicate_of_neg _ _ _ rfl, List.reverse_replicate,
    dropWhile_replicate_of_neg _ _ _ rfl, List.reverse_replicate]

theorem utf8DecodeAux_replicate_a (n : Nat) :
    utf8DecodeAux n (List.replicate n (97 : Byte)) = some (List.replicate n 'a') := by
  induction n with
  | zero => rfl
  | succ n ih =>
    have hstep : utf8DecodeAux (n + 1) ((97 : Byte) :: List.replicate n (97 : Byte)) =
        (utf8DecodeAux n (List.replicate n (97 : Byte))).map
          (fun cs => Char.ofNat ((97 : Byte)).val :: cs) := rfl
    rw [List.replicate_succ, hstep, ih]
    rfl

theorem utf8Decode_replicate_a (n : Nat) :
    utf8Decode (List.replicate n (97 : Byte)) = some (List.replicate n 'a') := by
  unfold utf8Decode
  rw [List.length_replicate]
  exact utf8DecodeAux_replicate_a n

theorem read_long :
    read_text_file (some (List.replicate 5001 (97 : Byte))) = some (aString 5001, none) := by
  simp only [read_text_file]
  rw [show decodeWith Encoding.utf8 (List.replicate 5001 (97 : Byte)) =
    some (List.replicate 5001 'a') from utf8Decode_replicate_a 5001]
  show some (pyStrip (List.replicate 5001 'a').asString, none) = _
  unfold pyStrip
  rw [toList_asString, pyStripList_replicate_a]
  rfl

theorem aString_length (n : Nat) : (aString n).length = n := by
  show (List.replicate n 'a').length = n
  simp

theorem aString_5001_ne : aString 5001 ≠ "" := by
  intro h
  have h2 := congrArg String.length h
  rw [aString_length] at h2
  simp [String.length] at h2

theorem text_to_speech_error (api_key text voice model : String) (s sb st : ℚ)
    (status : Nat) (body : List Byte) (h4 : 400 ≤ status) (h6 : status < 600) :
    (text_to_speech api_key text voice model s sb st (HttpOutcome.resp status body)).2 = none := by
  have hst : statusError status = true := by
    unfold statusError
    rw [decide_eq_true h4, decide_eq_true h6]
    rfl
  show (if statusError status then none else some body) = none
  rw [hst]
  rfl

theorem afterAudio_prompted (args : Args) (env : Env) (input_file : String)
    (prompted : Bool) (req : Request) (a : Option (List Byte)) :
    (afterAudio args env input_file prompted req a).prompted = prompted := by
  unfold afterAudio
  cases a with
  | none => rfl
  | some bytes =>
    dsimp only
    split
    · rfl
    · split <;> rfl

theorem runSynthesis_prompted (args : Args) (env : Env) (input_file text key : String)
    (prompted : Bool) :
    (runSynthesis args env input_file text key prompted).prompted = prompted := by
  unfold runSynthesis
  exact afterAudio_prompted _ _ _ _ _ _

theorem runSynthesis_fail (args : Args) (env : Env) (input_file text key : String)
    (prompted : Bool)
    (h : (text_to_speech key text args.voice args.model args.stability args.similarity
      args.style env.synth).2 = none) :
    (runSynthesis args env input_file text key prompted).exitCode = 1 ∧
    (runSynthesis args env input_file text key prompted).written = none := by
  unfold runSynthesis
  rw [h]
  exact ⟨rfl, rfl⟩

theorem runSynthesis_success (args : Args) (env : Env) (input_file text key : String)
    (p : Bool) (status : Nat) (body : List Byte)
    (hs : env.synth = HttpOutcome.resp status body) (hst : statusError status = false)
    (hb : body ≠ []) (hout : args.output = none) (hsave : env.saveOk = true) :
    (runSynthesis args env input_file text key p).written =
      some (autoName input_file args.voice env.now, body) ∧
    (runSynthesis args env input_file text key p).exitCode = 0 := by
  unfold runSynthesis
  have h2 : (text_to_speech key text args.voice args.model args.stability args.similarity
      args.style env.synth).2 = some body := by
    rw [hs]
    show (if statusError status then none else some body) = some body
    rw [hst]
    rfl
  rw [h2]
  unfold afterAudio
  simp only [hb, if_neg, hout, hsave]
  exact ⟨rfl, rfl⟩

theorem main_cases (args : Args) (env : Env) :
    (Script.main args env).synthRequest = none ∨
    ∃ input_file text key prompted,
      Script.main args env = runSynthesis args env input_file text key prompted := by
  unfold Script.main
  repeat' split
  all_goals first
    | exact Or.inl rfl
    | exact Or.inr ⟨_, _, _, _, rfl⟩

theorem main_reach (args : Args) (env : Env) (key input_file text : String)
    (enc : Option Encoding)
    (hk : env.api_key = some key) (hkne : key ≠ "")
    (htc : args.test_connection = false)
    (hf : args.input_file = some input_file)
    (hr : read_text_file env.file = some (text, enc))
    (hne : text ≠ "") :
    Script.main args env =
      (if 5000 < text.length then
        if pyLower env.userAnswer ≠ "y" then ⟨1, true, none, none, none⟩
        else runSynthesis args env input_file text key true
      else runSynthesis args env input_file text key false) := by
  unfold Script.main
  simp only [hk, htc, hf, hr, Bool.false_eq_true, if_false, hne, if_neg hkne]

/-- Claim C1: in text_to_speech, a voice name whose lower-cased form is a
key of the built-in voice catalog resolves to the catalog identifier for
that key, and any other supplied name is used as the voice identifier
itself, unchanged. -/
theorem voice_resolution (api_key text voice model : String) (s sb st : ℚ)
    (out : HttpOutcome) :
    (∀ vid, List.lookup (pyLower voice) voices = some vid →
      (text_to_speech api_key text voice model s sb st out).1.voice_id = vid) ∧
    (List.lookup (pyLower voice) voices = none →
      (text_to_speech api_key text voice model s sb st out).1.voice_id = voice) := by
  constructor
  · intro vid hv
    show (List.lookup (pyLower voice) voices).getD voice = vid
    rw [hv]
    rfl
  · intro hv
    show (List.lookup (pyLower voice) voices).getD voice = voice
    rw [hv]
    rfl

/-- Witness for C1: the catalog name Adam resolves through the catalog and
a non-catalog token passes through unchanged. -/
theorem voice_resolution_witness :
    (text_to_speech "k" "t" "Adam" "m" 0 0 0 (HttpOutcome.resp 200 [])).1.voice_id =
      "pNInz6obpgDQGcFmaJgB" ∧
    (text_to_speech "k" "t" "MyVoiceId42" "m" 0 0 0 (HttpOutcome.resp 200 [])).1.voice_id =
      "MyVoiceId42" :=
  ⟨(voice_resolution "k" "t" "Adam" "m" 0 0 0 (HttpOutcome.resp 200 [])).1 _ (by decide),
   (voice_resolution "k" "t" "MyVoiceId42" "m" 0 0 0 (HttpOutcome.resp 200 [])).2 (by decide)⟩

/-- Counterexample to claim C2 as stated: status 300 is not in the 2xx
range, yet raise_for_status does not raise for it, so text_to_speech
returns the response body as audio, main writes the output file and exits
with code 0. -/
theorem non2xx_counterexample :
    (text_to_speech "k" "hi" "adam" "eleven_turbo_v2_5" 0 0 0
        (HttpOutcome.resp 300 [7])).2 = some [7] ∧
    (Script.main cxArgs cxEnv).exitCode = 0 ∧
    (Script.main cxArgs cxEnv).written = some ("out.mp3", [7]) := by
  refine ⟨rfl, rfl, rfl⟩

/-- Claim C2 amended: for every synthesis response whose status lies in the
range 400 to 599 (where raise_for_status raises), text_to_speech returns
no audio, and whenever main issued the synthesis request it exits with
code 1 without writing any output file. -/
theorem synthesis_http_error (args : Args) (env : Env) (status : Nat)
    (body : List Byte) (api_key text : String)
    (hs : env.synth = HttpOutcome.resp status body)
    (h4 : 400 ≤ status) (h6 : status < 600) :
    (text_to_speech api_key text args.voice args.model args.stability
        args.similarity args.style env.synth).2 = none ∧
    ((Script.main args env).synthRequest.isSome →
      (Script.main args env).exitCode = 1 ∧ (Script.main args env).written = none) := by
  have hfail : ∀ k t : String,
      (text_to_speech k t args.voice args.model args.stability args.similarity
        args.style env.synth).2 = none := by
    intro k t
    rw [hs]
    exact text_to_speech_error k t args.voice args.model args.stability
      args.similarity args.style status body h4 h6
  refine ⟨hfail api_key text, ?_⟩
  intro hsome
  rcases main_cases args env with h | ⟨i, t, k, p, h⟩
  · rw [h] at hsome
    simp at hsome
  · rw [h] at hsome ⊢
    exact runSynthesis_fail args env i t k p (hfail k t)

/-- Witness for C2 (amended): a 404 synthesis response makes main exit
with code 1 and write nothing. -/
theorem synthesis_http_error_witness :
    (Script.main errArgs errEnv).exitCode = 1 ∧ (Script.main errArgs errEnv).written = none :=
  (synthesis_http_error errArgs errEnv 404 [] "k" "hi" rfl (by decide) (by decide)).2
    (by decide)

/-- Claim C3: with text longer than 5000 characters main prompts for
confirmation, and unless the lower-cased answer is the letter y it exits
with code 1 and no synthesis request is ever issued; with text of at most
5000 characters no prompt occurs. -/
theorem long_text_confirmation (args : Args) (env : Env)
    (key input_file text : String) (enc : Option Encoding)
    (hk : env.api_key = some key) (hkne : key ≠ "")
    (htc : args.test_connection = false)
    (hf : args.input_file = some input_file)
    (hr : read_text_file env.file = some (text, enc))
    (hne : text ≠ "") :
    (5000 < text.length → pyLower env.userAnswer ≠ "y" →
      (Script.main args env).exitCode = 1 ∧ (Script.main args env).prompted = true ∧
      (Script.main args env).synthRequest = none) ∧
    (text.length ≤ 5000 → (Script.main args env).prompted = false) := by
  have hmain := main_reach args env key input_file text enc hk hkne htc hf hr hne
  constructor
  · intro hlen hans
    rw [hmain, if_pos hlen, if_pos hans]
    exact ⟨rfl, rfl, rfl⟩
  · intro hlen
    rw [hmain, if_neg (Nat.not_lt.mpr hlen)]
    exact runSynthesis_prompted args env input_file text key false

/-- Witness for C3: a 5001-character input with an empty answer to the
prompt makes main exit with code 1, after prompting, with no synthesis
request. -/
theorem long_text_confirmation_witness :
    (Script.main longArgs longEnv).exitCode = 1 ∧
    (Script.main longArgs longEnv).prompted = true ∧
    (Script.main longArgs longEnv).synthRequest = none :=
  (long_text_confirmation longArgs longEnv "k" "a.txt" (aString 5001) none rfl
      (by decide) rfl rfl read_long aString_5001_ne).1
    (by rw [aString_length]; omega) (by decide)

/-- Claim C4: the synthesis request body is exactly the given text, the
given model identifier and a voice-settings object that forwards
stability, similarity_boost and style unchanged, with no clamping or
range validation, and always sets use_speaker_boost to true. -/
theorem payload_exact (api_key text voice model : String) (s sb st : ℚ)
    (out : HttpOutcome) :
    (text_to_speech api_key text voice model s sb st out).1.payload =
      ⟨text, model, ⟨s, sb, st, true⟩⟩ := rfl

/-- Counterexample to claim C5 as stated: the connection-test request does
not carry the content-type header (it sends only the API-key header),
while the synthesis request does carry it. -/
theorem probe_headers_counterexample :
    (test_connection "k" (ProbeOutcome.resp 200 [])).headers = [("xi-api-key", "k")] ∧
    List.lookup "Content-Type" (test_connection "k" (ProbeOutcome.resp 200 [])).headers =
      none ∧
    List.lookup "Content-Type"
        (text_to_speech "k" "t" "adam" "m" 0 0 0 (HttpOutcome.resp 200 [])).1.headers =
      some "application/json" := by
  refine ⟨rfl, rfl, rfl⟩

/-- Claim C5 amended: both operations attach the API-key header to every
request, but they do not share one fixed header set: the synthesis request
carries the accept-audio, content-type and API-key headers, while the
connection-test request carries only the API-key header. -/
theorem headers_amended (probe_key : String) (pout : ProbeOutcome)
    (api_key text voice model : String) (s sb st : ℚ) (out : HttpOutcome) :
    (test_connection probe_key pout).headers = [("xi-api-key", probe_key)] ∧
    (text_to_speech api_key text voice model s sb st out).1.headers =
      [("Accept", "audio/mpeg"), ("Content-Type", "application/json"),
       ("xi-api-key", api_key)] := by
  constructor
  · cases pout with
    | transport m => rfl
    | resp status vl =>
      simp only [test_connection]
      split <;> rfl
  · rfl

/-- Claim C6: when no output path is given, the output file name is the
input stem, the supplied voice name and the current timestamp joined by
underscores, with extension .mp3. -/
theorem auto_output_name (args : Args) (env : Env) (key input_file text : String)
    (enc : Option Encoding) (status : Nat) (body : List Byte)
    (hk : env.api_key = some key) (hkne : key ≠ "")
    (htc : args.test_connection = false)
    (hf : args.input_file = some input_file)
    (hr : read_text_file env.file = some (text, enc))
    (hne : text ≠ "")
    (hconf : text.length ≤ 5000 ∨ pyLower env.userAnswer = "y")
    (hout : args.output = none)
    (hs : env.synth = HttpOutcome.resp status body)
    (hst : statusError status = false)
    (hb : body ≠ []) (hsave : env.saveOk = true) :
    (Script.main args env).written =
      some (pyStem input_file ++ "_" ++ args.voice ++ "_" ++ strftime_ts env.now ++ ".mp3",
        body) := by
  have hmain := main_reach args env key input_file text enc hk hkne htc hf hr hne
  rw [hmain]
  by_cases hlen : 5000 < text.length
  · rw [if_pos hlen]
    rcases hconf with h | h
    · exact absurd hlen (Nat.not_lt.mpr h)
    · rw [if_neg (by simp [h])]
      exact (runSynthesis_success args env input_file text key true status body
        hs hst hb hout hsave).1
  · rw [if_neg hlen]
    exact (runSynthesis_success args env input_file text key false status body
      hs hst hb hout hsave).1

/-- Witness for C6: input draft.txt with voice bella at time
2024-01-02 03:04:05 produces draft_bella_20240102_030405.mp3. -/
theorem auto_output_name_witness :
    (Script.main nameArgs nameEnv).written =
      some ("draft_bella_20240102_030405.mp3", [1]) :=
  (auto_output_name nameArgs nameEnv "k" "draft.txt" "hi" none 200 [1] rfl (by decide)
      rfl rfl (by decide) (by decide) (Or.inl (by decide)) rfl rfl (by decide)
      (by decide) rfl).trans (by decide)

/-- Claim C7: a successful voice-listing response with the given voices
prints their total count and exactly the first min(count, 10) entries,
each made of the voice name and the first 8 characters of its
identifier. -/
theorem probe_display (api_key : String) (status : Nat) (vl : List VoiceInfo)
    (h : statusError status = false) :
    (test_connection api_key (ProbeOutcome.resp status vl)).ok = true ∧
    (test_connection api_key (ProbeOutcome.resp status vl)).printedCount = some vl.length ∧
    (test_connection api_key (ProbeOutcome.resp status vl)).printedEntries =
      (vl.take 10).map (fun v => (v.name, v.voice_id.take 8)) ∧
    (test_connection api_key (ProbeOutcome.resp status vl)).printedEntries.length =
      min vl.length 10 := by
  simp only [test_connection]
  rw [if_neg (by simp [h])]
  refine ⟨rfl, rfl, rfl, ?_⟩
  simp [List.length_take, Nat.min_comm]

/-- Witness for C7: with 12 voices the probe prints a count of 12 and
exactly 10 entries. -/
theorem probe_display_witness :
    (test_connection "k" (ProbeOutcome.resp 200 voices12)).printedCount = some 12 ∧
    (test_connection "k" (ProbeOutcome.resp 200 voices12)).printedEntries.length = 10 := by
  have h := probe_display "k" 200 voices12 (by decide)
  exact ⟨h.2.1.trans (by decide), h.2.2.2.trans (by decide)⟩

/-- Claim C8: the no-encoding-succeeded branch of the reader is
unreachable: for every byte sequence of an existing readable file,
read_text_file returns content decoded by UTF-8 or by the total Latin-1
fallback, and never reports a decode failure. -/
theorem reader_total (bs : List Byte) :
    ∃ content, read_text_file (some bs) = some (content, none) ∨
      read_text_file (some bs) = some (content, some Encoding.latin1) := by
  simp only [read_text_file]
  cases h : decodeWith Encoding.utf8 bs with
  | some cs => exact ⟨pyStrip cs.asString, Or.inl rfl⟩
  | none => exact ⟨pyStrip (latin1Decode bs).asString, Or.inr rfl⟩

/-- Claim C9: an input file whose content is empty or all whitespace
strips to the empty string, and main exits with code 1 before issuing any
network request. -/
theorem blank_input_aborts (args : Args) (env : Env) (key input_file : String)
    (bs : List Byte) (cs : List Char)
    (hk : env.api_key = some key) (hkne : key ≠ "")
    (htc : args.test_connection = false)
    (hf : args.input_file = some input_file)
    (hfile : env.file = some bs)
    (hdec : utf8Decode bs = some cs)
    (hws : ∀ c ∈ cs, pyIsSpace c = true) :
    (Script.main args env).exitCode = 1 ∧ (Script.main args env).synthRequest = none ∧
    (Script.main args env).probe = none := by
  have hstrip : pyStrip cs.asString = "" := by
    unfold pyStrip pyStripList
    rw [toList_asString, List.dropWhile_eq_nil_iff.mpr hws]
    rfl
  have hr : read_text_file env.file = some ("", none) := by
    rw [hfile]
    simp only [read_text_file, decodeWith, hdec, hstrip]
  have hmain : Script.main args env = exitFail := by
    unfold Script.main
    simp [hk, hkne, htc, hf, hr]
  rw [hmain]
  exact ⟨rfl, rfl, rfl⟩

/-- Witness for C9: a file holding one space and one newline makes main
exit with code 1 with no network request of either kind. -/
theorem blank_input_aborts_witness :
    (Script.main blankArgs blankEnv).exitCode = 1 ∧
    (Script.main blankArgs blankEnv).synthRequest = none ∧
    (Script.main blankArgs blankEnv).probe = none :=
  blank_input_aborts blankArgs blankEnv "k" "a.txt" [32, 10] [' ', '\n'] rfl (by decide)
    rfl rfl rfl (by decide) (by decide)

/-- Claim C10: with the test-connection flag and a present non-empty API
key, main runs the probe, ignores its boolean result, and exits with code
0 whatever the probe outcome was. -/
theorem probe_ignored_exit (args : Args) (env : Env) (key : String)
    (hk : env.api_key = some key) (hkne : key ≠ "")
    (htc : args.test_connection = true) :
    (Script.main args env).exitCode = 0 ∧
    (Script.main args env).probe = some (test_connection key env.probe) := by
  unfold Script.main
  simp [hk, hkne, htc]

/-- Witness for C10: even with a probe that fails at the transport level,
main exits with code 0. -/
theorem probe_ignored_exit_witness :
    (Script.main tcArgs tcEnv).exitCode = 0 :=
  (probe_ignored_exit tcArgs tcEnv "k" rfl (by decide) rfl).1
